import Mathlib

/-!
# Verification of the Squber futures analytics computations

This file is a shallow embedding, over exact rationals, of the arithmetic core of
`src/app/src/squber/__init__.py`: the computations inside the tools
`futures_market_data`, `futures_position_tracker`, `futures_hedge_advisor` and
`futures_basis_analysis`.

Modelling conventions:

* Python floats are modelled as `ℚ`; the float square root (`** 0.5`) is modelled
  by `Real.sqrt` on the rational value.
* Database NULLs are modelled by `Option ℚ`; Python truthiness (`if x:`) on a
  price is "present and nonzero".
* A Python exception that is caught by the enclosing `try`/`except` block (which
  turns it into an error JSON payload) is modelled by an `Except`/`Option` error
  result.
* SQL rows that feed each computation are taken as explicit list/record inputs;
  the aggregate query `SELECT AVG(...)` is modelled by the fact that it always
  yields exactly one row whose value is NULL when no base rows matched.
-/

namespace Squber

/-! ## Price statistics (`futures_market_data`, lines 429-448) -/

/-- Python truthiness filter of line 430,
`[p["settle_price"] for p in prices if p["settle_price"]]`:
keeps a settle price when it is present (not NULL) and nonzero. -/
def filterSettle : List (Option ℚ) → List ℚ
  | [] => []
  | none :: rest => filterSettle rest
  | some p :: rest => if p = 0 then filterSettle rest else p :: filterSettle rest

/-- Consecutive fractional returns of lines 440-441:
`price_changes = [(settle_prices[i] - settle_prices[i+1]) / settle_prices[i+1] ...]`. -/
def returnsOf : List ℚ → List ℚ
  | a :: b :: rest => (a - b) / b :: returnsOf (b :: rest)
  | _ => []

/-- The inline mean `sum(l) / len(l)` used throughout the Python expressions. -/
def pyMean (l : List ℚ) : ℚ :=
  l.sum / l.length

/-- The variance expression shared by lines 442-443 and line 849:
`sum([(x - sum(l)/len(l))**2 for x in l]) / len(l)`. -/
def pyPopVar (l : List ℚ) : ℚ :=
  (l.map (fun x => (x - pyMean l) ^ 2)).sum / l.length

/-- Volatility of lines 439-448: for more than one settle price, the square root of
`pyPopVar` of the returns, times 100; otherwise the explicit `else` branch sets it
to 0. -/
noncomputable def codeVolatility (s : List ℚ) : ℝ :=
  if 1 < s.length then Real.sqrt (pyPopVar (returnsOf s)) * 100 else 0

/-- Price statistics record of lines 431-448 (without the volatility, which lives
in `ℝ` because of the square root). -/
structure PriceStats where
  price_change : ℚ
  pct_change : ℚ
  high : ℚ
  low : ℚ
  avg : ℚ
  deriving DecidableEq, Repr

/-- Statistics of lines 431-448 over the filtered settle prices: `none` models the
`IndexError` raised by `settle_prices[0]` on an empty series (caught by the
enclosing `try` and turned into an error payload); one element takes the explicit
`else` branch; otherwise day-over-day change, window high/low/mean. -/
def computePriceStatistics : List ℚ → Option PriceStats
  | [] => none
  | [p] => some ⟨0, 0, p, p, p⟩
  | a :: b :: rest =>
      some ⟨a - b, ((a - b) / b) * 100,
        (b :: rest).foldl max a,
        (b :: rest).foldl min a,
        pyMean (a :: b :: rest)⟩

/-! Spec-side definitions for the refinement comparison of the volatility (C4):
the returns written with explicit indices, exactly as the spec sentence indexes
them, and the population variance in the computational form E[x²] − (E[x])². -/

/-- Returns as the spec writes them:
`returns[i] = (settle[i] - settle[i+1]) / settle[i+1]` for
`i = 0 .. length - 2`, newest first. -/
def specReturns (s : List ℚ) : List ℚ :=
  (List.range (s.length - 1)).map
    (fun i => (s.getD i 0 - s.getD (i + 1) 0) / s.getD (i + 1) 0)

/-- Population variance in the computational form E[x²] − (E[x])². -/
def popVariance (l : List ℚ) : ℚ :=
  (l.map (fun x => x ^ 2)).sum / l.length - (pyMean l) ^ 2

/-- Population standard deviation of a rational series, as a real. -/
noncomputable def popStdDev (l : List ℚ) : ℝ :=
  Real.sqrt (popVariance l)

theorem specReturns_nil : specReturns [] = [] := by
  simp [specReturns]

theorem specReturns_single (a : ℚ) : specReturns [a] = [] := by
  simp [specReturns]

theorem specReturns_cons (a b : ℚ) (rest : List ℚ) :
    specReturns (a :: b :: rest) = (a - b) / b :: specReturns (b :: rest) := by
  simp only [specReturns, List.length_cons]
  rw [show rest.length + 1 + 1 - 1 = (rest.length + 1 - 1) + 1 by omega,
    List.range_succ_eq_map]
  simp only [List.map_cons, List.map_map]
  congr 1

theorem returnsOf_eq_specReturns (s : List ℚ) : returnsOf s = specReturns s := by
  induction s with
  | nil => simp [returnsOf, specReturns_nil]
  | cons a tail ih =>
      cases tail with
      | nil => simp [returnsOf, specReturns_single]
      | cons b rest =>
          rw [specReturns_cons]
          simpa [returnsOf] using ih

theorem returnsOf_length (s : List ℚ) : (returnsOf s).length = s.length - 1 := by
  induction s with
  | nil => simp [returnsOf]
  | cons a tail ih =>
      cases tail with
      | nil => simp [returnsOf]
      | cons b rest =>
          simp only [returnsOf, List.length_cons] at ih ⊢
          omega

theorem map_sub_sq_sum (l : List ℚ) (c : ℚ) :
    (l.map (fun x => (x - c) ^ 2)).sum
      = (l.map (fun x => x ^ 2)).sum - 2 * c * l.sum + l.length * c ^ 2 := by
  induction l with
  | nil => simp
  | cons a t ih =>
      simp only [List.map_cons, List.sum_cons, List.length_cons, ih]
      push_cast
      ring

theorem pyPopVar_eq_popVariance (l : List ℚ) (h : l ≠ []) :
    pyPopVar l = popVariance l := by
  have hn0 : l.length ≠ 0 := fun hz => h (List.length_eq_zero.mp hz)
  have hn : (l.length : ℚ) ≠ 0 := Nat.cast_ne_zero.mpr hn0
  unfold pyPopVar popVariance pyMean
  rw [map_sub_sq_sum]
  field_simp
  ring

/-- C4: for every settlement-price series whose truthiness-filtered settle prices
number at least 2, the volatility reported by `futures_market_data` equals the
population standard deviation of the consecutive fractional returns
`returns[i] = (settle[i] - settle[i+1]) / settle[i+1]` (newest first), times 100. -/
theorem volatility_is_population_stddev (raw : List (Option ℚ))
    (h : 2 ≤ (filterSettle raw).length) :
    codeVolatility (filterSettle raw)
      = popStdDev (specReturns (filterSettle raw)) * 100 := by
  set s := filterSettle raw with hs
  have h1 : 1 < s.length := h
  have hret : returnsOf s ≠ [] := by
    intro hz
    have hl := returnsOf_length s
    rw [hz] at hl
    simp only [List.length_nil] at hl
    omega
  rw [codeVolatility, if_pos h1, popStdDev, ← returnsOf_eq_specReturns,
    pyPopVar_eq_popVariance _ hret]

/-- C4 witness: a concrete two-point series. -/
theorem volatility_is_population_stddev_witness :
    2 ≤ (filterSettle [some 2, some 1]).length
      ∧ codeVolatility (filterSettle [some 2, some 1])
          = popStdDev (specReturns (filterSettle [some 2, some 1])) * 100 :=
  ⟨by norm_num [filterSettle],
    volatility_is_population_stddev [some 2, some 1] (by norm_num [filterSettle])⟩

/-- C5: for a series with a single settle price, the statistics take the explicit
degenerate branch: change 0, percentage change 0, high = low = mean = the single
price, and volatility 0. -/
theorem singleton_series_statistics (p : ℚ) :
    computePriceStatistics [p] = some ⟨0, 0, p, p, p⟩
      ∧ codeVolatility [p] = 0 :=
  ⟨rfl, by simp [codeVolatility]⟩

/-! ## Position valuation (`futures_position_tracker`, lines 497-595) -/

/-- One row of the open-positions query (lines 518-532): joined position, contract
size, and the latest settle price for the contract (NULL when the contract has no
price rows at all, because of the LEFT JOIN). -/
structure PositionRow where
  position_id : ℕ
  position_type : String
  quantity : ℚ
  entry_price : ℚ
  margin_requirement : Option ℚ
  contract_size_tons : ℚ
  current_price : Option ℚ
  deriving DecidableEq, Repr

/-- One entry of the `open_positions` output list (lines 557-569). -/
structure PositionInfo where
  position_id : ℕ
  position_type : String
  quantity : ℚ
  entry_price : ℚ
  current_price : ℚ
  unrealized_pnl : ℚ
  margin_requirement : Option ℚ
  deriving DecidableEq, Repr

/-- Python truthiness of `if pos["current_price"]:` (line 545): present and
nonzero. -/
def truthyPrice : Option ℚ → Bool
  | none => false
  | some c => decide (c ≠ 0)

/-- Unrealized P&L of lines 549-552: long is
`(current - entry) * contract_size_tons * 2000 * quantity`, anything else takes
the short branch `(entry - current) * contract_size_tons * 2000 * quantity`. -/
def positionPnl (position_type : String) (entry current size qty : ℚ) : ℚ :=
  if position_type = "long" then (current - entry) * size * 2000 * qty
  else (entry - current) * size * 2000 * qty

/-- The output entry built for a row that passed the truthiness test, with `c` the
unwrapped current price. -/
def positionInfoOf (r : PositionRow) (c : ℚ) : PositionInfo :=
  ⟨r.position_id, r.position_type, r.quantity, r.entry_price, c,
    positionPnl r.position_type r.entry_price c r.contract_size_tons r.quantity,
    r.margin_requirement⟩

/-- The valuation loop of lines 539-570: returns the `open_positions` list, the
total unrealized P&L and the total margin requirement. Rows whose current price
is NULL or zero are skipped entirely (they contribute to neither the list nor the
totals). -/
def valuatePositions : List PositionRow → List PositionInfo × ℚ × ℚ
  | [] => ([], 0, 0)
  | r :: rest =>
      match r.current_price with
      | some c =>
          if c ≠ 0 then
            let tail := valuatePositions rest
            (positionInfoOf r c :: tail.1,
              positionPnl r.position_type r.entry_price c r.contract_size_tons r.quantity
                + tail.2.1,
              r.margin_requirement.getD 0 + tail.2.2)
          else valuatePositions rest
      | none => valuatePositions rest

/-- C1 counterexample: a vessel with exactly one open position whose contract has
no current settlement price; the returned per-position list is empty — the
position is silently dropped, with no "no current price" entry — and the totals
are zero. -/
theorem priceless_position_dropped :
    valuatePositions [⟨1, "long", 1, 2, some 100, 50, none⟩] = ([], 0, 0) :=
  rfl

/-- C1 amended: the valuation output lists exactly the rows whose current price is
present and nonzero (in order), and the aggregated totals range over those same
rows only; rows without a usable current price are excluded from the list and the
totals alike. -/
theorem valuatePositions_characterization (rows : List PositionRow) :
    (valuatePositions rows).1
        = (rows.filter (fun r => truthyPrice r.current_price)).map
            (fun r => positionInfoOf r (r.current_price.getD 0))
      ∧ (valuatePositions rows).2.1
          = ((rows.filter (fun r => truthyPrice r.current_price)).map
              (fun r => positionPnl r.position_type r.entry_price
                (r.current_price.getD 0) r.contract_size_tons r.quantity)).sum
      ∧ (valuatePositions rows).2.2
          = ((rows.filter (fun r => truthyPrice r.current_price)).map
              (fun r => r.margin_requirement.getD 0)).sum := by
  induction rows with
  | nil => simp [valuatePositions]
  | cons r rest ih =>
      obtain ⟨ih1, ih2, ih3⟩ := ih
      cases hc : r.current_price with
      | none =>
          simp [valuatePositions, hc, truthyPrice, ih1, ih2, ih3]
      | some c =>
          by_cases hz : c = 0
          · simp [valuatePositions, hc, hz, truthyPrice, ih1, ih2, ih3]
          · simp [valuatePositions, hc, hz, truthyPrice, ih1, ih2, ih3]

/-- C2: for an open position whose contract has a (nonzero) current settlement
price, the reported unrealized P&L follows the long/short formulas, and the short
P&L is exactly the negation of the long P&L with identical parameters. -/
theorem position_pnl_formulas (pid : ℕ) (qty entry size c : ℚ) (m : Option ℚ)
    (hc : c ≠ 0) :
    (valuatePositions [⟨pid, "long", qty, entry, m, size, some c⟩]).1
        = [⟨pid, "long", qty, entry, c, (c - entry) * size * 2000 * qty, m⟩]
      ∧ (valuatePositions [⟨pid, "short", qty, entry, m, size, some c⟩]).1
          = [⟨pid, "short", qty, entry, c, (entry - c) * size * 2000 * qty, m⟩]
      ∧ positionPnl "short" entry c size qty
          = -positionPnl "long" entry c size qty := by
  refine ⟨?_, ?_, ?_⟩
  · simp [valuatePositions, hc, positionInfoOf, positionPnl]
  · simp [valuatePositions, hc, positionInfoOf, positionPnl]
  · rw [positionPnl, positionPnl, if_neg (by decide), if_pos rfl]
    ring

/-- C2 witness: contract size 50 tons, entry 2.00, current 2.10, quantity 3, long:
the reported P&L is 30,000, and the short mirror negates it. -/
theorem position_pnl_formulas_witness :
    (valuatePositions [⟨1, "long", 3, 2, none, 50, some (21 / 10)⟩]).2.1 = 30000
      ∧ ((valuatePositions [⟨1, "long", 3, 2, none, 50, some (21 / 10)⟩]).1
            = [⟨1, "long", 3, 2, 21 / 10, (21 / 10 - 2) * 50 * 2000 * 3, none⟩]
          ∧ (valuatePositions [⟨1, "short", 3, 2, none, 50, some (21 / 10)⟩]).1
              = [⟨1, "short", 3, 2, 21 / 10, (2 - 21 / 10) * 50 * 2000 * 3, none⟩]
          ∧ positionPnl "short" 2 (21 / 10) 50 3
              = -positionPnl "long" 2 (21 / 10) 50 3) :=
  ⟨by norm_num [valuatePositions, positionPnl],
    position_pnl_formulas 1 3 2 50 (21 / 10) none (by norm_num)⟩

/-! ## Basis analysis (`futures_basis_analysis`, lines 762-935) -/

/-- Current basis and basis percentage of lines 818-820. -/
structure BasisData where
  basis : ℚ
  basis_percentage : ℚ
  deriving DecidableEq, Repr

/-- Lines 818-820: `basis = futures - spot`,
`basis_percentage = (basis / spot) * 100`. A zero spot price makes the division
raise `ZeroDivisionError`, which the enclosing `try`/`except` converts into an
error payload, so no numeric result is returned in that case. -/
def computeBasis (futures_price spot_price : ℚ) : Except String BasisData :=
  if spot_price = 0 then Except.error "float division by zero"
  else
    Except.ok
      ⟨futures_price - spot_price,
        ((futures_price - spot_price) / spot_price) * 100⟩

/-- C3: the basis analysis returns basis = futures − spot and
basis percentage = basis / spot × 100 whenever the spot price is nonzero, and for
a zero spot price it produces a flagged error result instead of a number (the
caught division error), never an uncaught arithmetic exception. -/
theorem basis_formula (f s : ℚ) :
    (s ≠ 0 →
        computeBasis f s = Except.ok ⟨f - s, ((f - s) / s) * 100⟩)
      ∧ (s = 0 → computeBasis f s = Except.error "float division by zero") := by
  constructor <;> intro h <;> simp [computeBasis, h]

/-- C3 witness: futures 3, spot 2 gives basis 1 and percentage 50; spot 0 gives
the flagged error. -/
theorem basis_formula_witness :
    computeBasis 3 2 = Except.ok ⟨1, 50⟩
      ∧ computeBasis 3 0 = Except.error "float division by zero" := by
  constructor
  · rw [(basis_formula 3 2).1 (by norm_num)]
    norm_num
  · exact (basis_formula 3 0).2 rfl

/-- Arbitrage signal kinds of lines 864-888, in the order the code tests them. -/
inductive ArbSignal
  | sellFuturesBuySpot
  | buyFuturesSellSpot
  | calendarSpread
  deriving DecidableEq, Repr

/-- One element of the `arbitrage_opportunities` JSON list (line 911): either a
signal entry or the explicit no-opportunity message. -/
inductive ArbEntry
  | signal (s : ArbSignal)
  | noOpportunityMarker
  deriving DecidableEq, Repr

/-- Average basis of lines 844-852: mean of the historical basis values, or the
current basis itself when no historical rows exist. -/
def avgBasis (basis : ℚ) (hist : List ℚ) : ℚ :=
  if hist = [] then basis else pyMean hist

/-- Basis volatility of lines 849-853: square root of the population variance of
the historical basis values, or 0 when no historical rows exist. -/
noncomputable def basisVolatility (hist : List ℚ) : ℝ :=
  if hist = [] then 0 else Real.sqrt (pyPopVar hist)

theorem basisVolatility_nonneg (hist : List ℚ) : 0 ≤ basisVolatility hist := by
  unfold basisVolatility
  split
  · exact le_refl 0
  · exact Real.sqrt_nonneg _

/-- Signal classification of lines 864-888: the three conditions are tested
independently, in order, each appending its signal. -/
noncomputable def classifyArbitrage (basis avg : ℚ) (vol : ℝ)
    (days_to_expiry : ℤ) : List ArbSignal :=
  (if (basis : ℝ) > (avg : ℝ) + vol then [ArbSignal.sellFuturesBuySpot] else [])
    ++ (if (basis : ℝ) < (avg : ℝ) - vol then [ArbSignal.buyFuturesSellSpot] else [])
    ++ (if |basis| < 1 / 100 ∧ days_to_expiry > 30 then [ArbSignal.calendarSpread]
        else [])

/-- The `arbitrage_opportunities` field of line 911: the signal list when any
signal fired, else a one-element list holding the explicit no-opportunity
message. -/
noncomputable def arbitrageOutput (basis avg : ℚ) (vol : ℝ) (d : ℤ) :
    List ArbEntry :=
  let signals := classifyArbitrage basis avg vol d
  if signals = [] then [ArbEntry.noOpportunityMarker]
  else signals.map ArbEntry.signal

/-- C6: with the historical mean and volatility computed by the code, a basis
strictly above mean + stddev fires the sell-futures signal and never the
buy-futures signal; and when no signal fires the output is the explicit
no-opportunity marker, and the output list is never empty. -/
theorem arbitrage_classification (basis : ℚ) (hist : List ℚ) (d : ℤ) :
    ((basis : ℝ) > (avgBasis basis hist : ℝ) + basisVolatility hist →
        ArbSignal.sellFuturesBuySpot
            ∈ classifyArbitrage basis (avgBasis basis hist) (basisVolatility hist) d
          ∧ ArbSignal.buyFuturesSellSpot
              ∉ classifyArbitrage basis (avgBasis basis hist) (basisVolatility hist) d)
      ∧ (classifyArbitrage basis (avgBasis basis hist) (basisVolatility hist) d = [] →
          arbitrageOutput basis (avgBasis basis hist) (basisVolatility hist) d
            = [ArbEntry.noOpportunityMarker])
      ∧ arbitrageOutput basis (avgBasis basis hist) (basisVolatility hist) d ≠ [] := by
  have hv : 0 ≤ basisVolatility hist := basisVolatility_nonneg hist
  refine ⟨fun hgt => ?_, fun hempty => ?_, ?_⟩
  · have hnlt : ¬ ((basis : ℝ) < (avgBasis basis hist : ℝ) - basisVolatility hist) := by
      intro hlt
      linarith
    constructor
    · simp [classifyArbitrage, hgt]
    · simp [classifyArbitrage, hgt, hnlt]
  · simp [arbitrageOutput, hempty]
  · by_cases hcase :
        classifyArbitrage basis (avgBasis basis hist) (basisVolatility hist) d = []
    · simp [arbitrageOutput, hcase]
    · simp [arbitrageOutput, hcase]

/-- C6 witness: one historical basis value 0 (mean 0, volatility 0) and current
basis 1 fires exactly the sell-futures signal; the output is nonempty. -/
theorem arbitrage_classification_witness :
    ArbSignal.sellFuturesBuySpot
        ∈ classifyArbitrage 1 (avgBasis 1 [0]) (basisVolatility [0]) 0
      ∧ ArbSignal.buyFuturesSellSpot
          ∉ classifyArbitrage 1 (avgBasis 1 [0]) (basisVolatility [0]) 0
      ∧ arbitrageOutput 1 (avgBasis 1 [0]) (basisVolatility [0]) 0 ≠ [] := by
  have hvol : basisVolatility [0] = 0 := by
    simp [basisVolatility, pyPopVar, pyMean]
  have hgt : ((1 : ℚ) : ℝ) > ((avgBasis 1 [0] : ℚ) : ℝ) + basisVolatility [0] := by
    rw [hvol]
    norm_num [avgBasis, pyMean]
  refine ⟨((arbitrage_classification 1 [0] 0).1 hgt).1,
    ((arbitrage_classification 1 [0] 0).1 hgt).2,
    (arbitrage_classification 1 [0] 0).2.2⟩

/-- Convergence block of the response (lines 855-861 and 905-909). -/
structure ConvergenceAnalysis where
  days_to_expiry : ℤ
  expected_basis_at_expiry : ℚ
  expected_convergence : ℚ
  convergence_rate : ℚ
  deriving DecidableEq, Repr

/-- The constant of line 860, `expected_basis_at_expiry = 0.02`. -/
def expectedBasisAtExpiry : ℚ := 2 / 100

/-- Lines 855-861 and 905-909: days-to-expiry is surfaced as-is, expected
convergence is basis minus the expiry constant, and the convergence rate divides
by `max(days_to_expiry, 1)`. -/
def convergenceAnalysis (basis : ℚ) (days_to_expiry : ℤ) : ConvergenceAnalysis :=
  ⟨days_to_expiry, expectedBasisAtExpiry, basis - expectedBasisAtExpiry,
    (basis - expectedBasisAtExpiry) / ((max days_to_expiry 1 : ℤ) : ℚ)⟩

/-- C8: expected convergence is basis − 0.02; the convergence-rate divisor
`max(days_to_expiry, 1)` is at least 1 (so strictly positive, never zero or
negative, even on or after expiry); and the reported days-to-expiry is the
unclamped input, which is negative for expired contracts (illustrated at −7). -/
theorem convergence_projection (basis : ℚ) (d : ℤ) :
    (convergenceAnalysis basis d).expected_convergence = basis - 2 / 100
      ∧ (convergenceAnalysis basis d).convergence_rate
          = (convergenceAnalysis basis d).expected_convergence
              / ((max d 1 : ℤ) : ℚ)
      ∧ 1 ≤ max d 1
      ∧ (0 : ℚ) < ((max d 1 : ℤ) : ℚ)
      ∧ (convergenceAnalysis basis d).days_to_expiry = d
      ∧ (convergenceAnalysis basis (-7)).days_to_expiry = -7 := by
  refine ⟨rfl, rfl, le_max_right d 1, ?_, rfl, rfl⟩
  have h1 : (1 : ℤ) ≤ max d 1 := le_max_right d 1
  exact_mod_cast lt_of_lt_of_le Int.zero_lt_one h1

/-! ## Hedge advisor (`futures_hedge_advisor`, lines 604-759) -/

/-- Python banker's rounding of a rational to the nearest integer: round half to
even, as `round` does on an exact value. -/
def pyRoundInt (q : ℚ) : ℤ :=
  if q - Int.floor q < 1 / 2 then Int.floor q
  else if q - Int.floor q > 1 / 2 then Int.floor q + 1
  else if Int.floor q % 2 = 0 then Int.floor q else Int.floor q + 1

/-- Python `round(q, 2)` as applied on line 690. -/
def pyRound2 (q : ℚ) : ℚ :=
  (pyRoundInt (q * 100) : ℚ) / 100

/-- One entry of the `hedging_scenarios` list (lines 687-695), with the numeric
values the formatting strings are built from. -/
structure HedgeScenario where
  hedge_ratio_pct : ℚ
  hedge_amount_tons : ℚ
  contracts_needed : ℚ
  guaranteed_revenue : ℚ
  unhedged_exposure_tons : ℚ
  margin_requirement : ℚ
  hedge_price : ℚ
  deriving DecidableEq, Repr

/-- One iteration of the scenario loop (lines 675-696): hedged pounds, fractional
contracts rounded to 2 decimal places, revenue at the hedge price, residual
exposure, and margin at 10% of notional. -/
def hedgeScenario (expected_catch_tons current_price contract_size_tons r : ℚ) :
    HedgeScenario :=
  let total_catch_lbs := expected_catch_tons * 2000
  let hedge_amount_lbs := total_catch_lbs * r
  let contracts := hedge_amount_lbs / (contract_size_tons * 2000)
  let hedged_revenue := hedge_amount_lbs * current_price
  let unhedged_lbs := total_catch_lbs - hedge_amount_lbs
  let notional_value := hedge_amount_lbs * current_price
  let margin_required := notional_value * (10 / 100)
  ⟨r * 100, hedge_amount_lbs / 2000, pyRound2 contracts, hedged_revenue,
    unhedged_lbs / 2000, margin_required, current_price⟩

/-- C7 counterexample: with catch 1 ton, contract size 3 tons and the code's own
hedge ratio 0.5, the exact fractional contracts needed are 1/6, but the reported
value is round(1/6, 2) = 0.17 ≠ 1/6; and with ratio 1 (double of 0.5) the
reported value 0.33 is not double of 0.17. -/
theorem contracts_needed_not_exact :
    (hedgeScenario 1 2 3 (1 / 2)).contracts_needed = 17 / 100
      ∧ (1 * 2000 * (1 / 2) : ℚ) / (3 * 2000) = 1 / 6
      ∧ (17 / 100 : ℚ) ≠ 1 / 6
      ∧ (hedgeScenario 1 2 3 1).contracts_needed = 33 / 100
      ∧ (33 / 100 : ℚ) ≠ 2 * (17 / 100) := by
  refine ⟨?_, by norm_num, by norm_num, ?_, by norm_num⟩
  · norm_num [hedgeScenario, pyRound2, pyRoundInt]
  · norm_num [hedgeScenario, pyRound2, pyRoundInt]

/-- C7 amended: the reported contracts-needed is the exact quotient
`hedged_lbs / (contract_size_tons * 2000)` rounded to 2 decimal places (never to
an integer), and the underlying unrounded quotient scales exactly linearly with
the hedge ratio: doubling the ratio doubles it. -/
theorem contracts_needed_rounded_and_linear
    (catch_tons price size r : ℚ) :
    (hedgeScenario catch_tons price size r).contracts_needed
        = pyRound2 (catch_tons * 2000 * r / (size * 2000))
      ∧ catch_tons * 2000 * (2 * r) / (size * 2000)
          = 2 * (catch_tons * 2000 * r / (size * 2000)) := by
  constructor
  · rfl
  · ring

/-- Rows of the contract query of lines 633-645: active contracts for the target
month whose latest settle price is not NULL (enforced by the SQL filter
`fp.settle_price IS NOT NULL`). -/
structure ContractRow where
  symbol : String
  contract_size_tons : ℚ
  current_price : ℚ
  deriving DecidableEq, Repr

/-- Python `max(rows, key=...)` (line 668): scan keeping the first element whose
key is maximal, replacing only on a strictly greater key. -/
def pyMaxBy (key : ContractRow → ℚ) (best : ContractRow) :
    List ContractRow → ContractRow
  | [] => best
  | x :: rest => pyMaxBy key (if key best < key x then x else best) rest

theorem pyMaxBy_mem (key : ContractRow → ℚ) (a : ContractRow)
    (l : List ContractRow) : pyMaxBy key a l ∈ a :: l := by
  induction l generalizing a with
  | nil => simp [pyMaxBy]
  | cons x rest ih =>
      have h := ih (if key a < key x then x else a)
      rcases List.mem_cons.mp h with h1 | h1
      · rw [pyMaxBy, h1]
        split
        · simp
        · simp
      · simp [pyMaxBy, List.mem_cons.mpr (Or.inr h1)]

theorem pyMaxBy_le (key : ContractRow → ℚ) (a : ContractRow)
    (l : List ContractRow) :
    ∀ x ∈ a :: l, key x ≤ key (pyMaxBy key a l) := by
  induction l generalizing a with
  | nil =>
      intro x hx
      rcases List.mem_cons.mp hx with h | h
      · rw [h, pyMaxBy]
      · simp at h
  | cons b rest ih =>
      intro x hx
      have hstep : key a ≤ key (if key a < key b then b else a)
          ∧ key b ≤ key (if key a < key b then b else a) := by
        by_cases hab : key a < key b
        · simp [hab, le_of_lt hab]
        · simp [hab, le_of_not_lt hab]
      rcases List.mem_cons.mp hx with h | h
      · rw [h, pyMaxBy]
        exact le_trans hstep.1
          (ih (if key a < key b then b else a) _ (List.mem_cons_self _ _))
      · rcases List.mem_cons.mp h with h2 | h2
        · rw [h2, pyMaxBy]
          exact le_trans hstep.2
            (ih (if key a < key b then b else a) _ (List.mem_cons_self _ _))
        · rw [pyMaxBy]
          exact ih (if key a < key b then b else a) x
            (List.mem_cons.mpr (Or.inr h2))

/-- One row of the stress-test loop (lines 705-721): unhedged revenue at the
scenario market price versus the 75%-hedged revenue at the hedge price. -/
structure RiskRow where
  scenario_kind : String
  market_price : ℚ
  unhedged_revenue : ℚ
  hedged_revenue_75pct : ℚ
  protection_value : ℚ
  deriving DecidableEq, Repr

/-- Lines 706-721, one scenario: `unhedged = total_catch_lbs * market_price`,
`hedged_total = total_catch_lbs * 0.75 * hedge_price
+ total_catch_lbs * 0.25 * market_price`, protection is the difference. -/
def riskRow (total_catch_lbs hedge_price market_price : ℚ) (kind : String) :
    RiskRow :=
  let unhedged_revenue := total_catch_lbs * market_price
  let hedged_portion := total_catch_lbs * (75 / 100) * hedge_price
  let unhedged_portion := total_catch_lbs * (25 / 100) * market_price
  let hedged_total := hedged_portion + unhedged_portion
  ⟨kind, market_price, unhedged_revenue, hedged_total,
    hedged_total - unhedged_revenue⟩

/-- Error outcomes of `futures_hedge_advisor`: the explicit early returns of
lines 627-631 and 652-655, and a Python exception caught by the enclosing
`try`/`except` (lines 753-759), carrying the raw interpreter message. -/
inductive HedgeError
  | capacityExceeded (expected_catch_tons capacity_tons : ℚ)
  | noContracts (target_month : String)
  | pythonTypeError (msg : String)
  deriving DecidableEq, Repr

/-- The numeric content of the advisor's successful response (lines 723-749). -/
structure HedgeResponse where
  current_spot_average : ℚ
  best_futures_price : ℚ
  futures_premium : ℚ
  recommended_contract : String
  hedging_scenarios : List HedgeScenario
  recommended_contracts_needed : ℚ
  recommended_margin : ℚ
  risk_analysis : List RiskRow
  deriving DecidableEq, Repr

/-- Result rows of the aggregate spot query of lines 658-664,
`SELECT AVG(price_per_lb) ...`: an SQL aggregate without GROUP BY always yields
exactly one row, whose value is NULL when no spot observations matched the
7-day/grade-A window. -/
def avgSpotRows (spot_obs : List ℚ) : List (Option ℚ) :=
  [if spot_obs = [] then none else some (pyMean spot_obs)]

/-- Line 665:
`avg_spot_price = spot_result["rows"][0]["avg_spot_price"] if spot_result["rows"]
else 2.50` — the 2.50 fallback fires only on a zero-row result. -/
def avgSpotPrice (rows : List (Option ℚ)) : Option ℚ :=
  match rows with
  | [] => some (5 / 2)
  | r :: _ => r

/-- Message of the `TypeError` raised on line 707 when `avg_spot_price` is None. -/
def typeErrorMsg : String :=
  "unsupported operand type(s) for *: 'float' and 'NoneType'"

/-- The futures hedge advisor after the vessel lookup (lines 617-751): capacity
validation, contract selection by maximal latest settle price, the three hedge
scenarios, the 75% recommendation, and the three-price stress test. A NULL spot
average reaches the multiplication on line 707 and raises the TypeError that the
enclosing handler converts into an error payload. -/
def futures_hedge_advisor (vessel_capacity_tons expected_catch_tons : ℚ)
    (target_month : String) (contracts : List ContractRow)
    (spot_obs : List ℚ) : Except HedgeError HedgeResponse :=
  if vessel_capacity_tons < expected_catch_tons then
    Except.error
      (HedgeError.capacityExceeded expected_catch_tons vessel_capacity_tons)
  else
    match contracts with
    | [] => Except.error (HedgeError.noContracts target_month)
    | c :: rest =>
        match avgSpotPrice (avgSpotRows spot_obs) with
        | none => Except.error (HedgeError.pythonTypeError typeErrorMsg)
        | some avg_spot =>
            let best := pyMaxBy (fun x => x.current_price) c rest
            let total_catch_lbs := expected_catch_tons * 2000
            let s75 := hedgeScenario expected_catch_tons best.current_price
              best.contract_size_tons (3 / 4)
            Except.ok
              { current_spot_average := avg_spot
                best_futures_price := best.current_price
                futures_premium := best.current_price - avg_spot
                recommended_contract := best.symbol
                hedging_scenarios :=
                  [hedgeScenario expected_catch_tons best.current_price
                      best.contract_size_tons (1 / 2),
                    s75,
                    hedgeScenario expected_catch_tons best.current_price
                      best.contract_size_tons (9 / 10)]
                recommended_contracts_needed := s75.contracts_needed
                recommended_margin := s75.margin_requirement
                risk_analysis :=
                  [riskRow total_catch_lbs best.current_price 2 "Price Crash",
                    riskRow total_catch_lbs best.current_price avg_spot
                      "Current Market",
                    riskRow total_catch_lbs best.current_price (7 / 2)
                      "Price Surge"] }

/-- The contract chosen on line 668:
`best_contract = max(contracts_result["rows"], key=lambda x: x["current_price"])`. -/
def bestContract (c : ContractRow) (rest : List ContractRow) : ContractRow :=
  pyMaxBy (fun x => x.current_price) c rest

/-- C9 counterexample: a valid request (catch within capacity, an active contract
with a settle price) but no spot rows in the lookback window. The advisor
returns the raw caught `TypeError` message — which never names the missing spot
data (the word "spot" does not occur in it) — rather than an error identifying
what was missing; the dead 2.50 fallback is not what surfaces either. -/
theorem no_spot_rows_generic_error :
    futures_hedge_advisor 100 10 "2025-03" [⟨"SQ-MAR25-MNT", 50, 2⟩] []
        = Except.error (HedgeError.pythonTypeError typeErrorMsg)
      ∧ ¬ List.IsInfix "spot".toList typeErrorMsg.toList := by
  constructor
  · rfl
  · decide

/-- C9 amended: whenever the catch passes validation and an active contract
exists but the spot window is empty, the aggregate query yields a single NULL
average (so the explicit 2.50 fallback of line 665 is not taken and no constant
spot price enters the analysis), and the NULL propagates into the stress-test
revenue multiplication, surfacing the generic float/None type error that does not
identify the missing spot data. -/
theorem no_spot_rows_surfaces_type_error (cap catch_tons : ℚ) (month : String)
    (c : ContractRow) (rest : List ContractRow) (h : catch_tons ≤ cap) :
    futures_hedge_advisor cap catch_tons month (c :: rest) []
      = Except.error (HedgeError.pythonTypeError typeErrorMsg) := by
  rw [futures_hedge_advisor, if_neg (not_lt.mpr h)]
  rfl

/-- C9 witness: the amended behaviour at a concrete request. -/
theorem no_spot_rows_surfaces_type_error_witness :
    futures_hedge_advisor 120 15 "2025-06" [⟨"SQ-JUN25-MNT", 25, 3⟩] []
      = Except.error (HedgeError.pythonTypeError typeErrorMsg) :=
  no_spot_rows_surfaces_type_error 120 15 "2025-06" ⟨"SQ-JUN25-MNT", 25, 3⟩ []
    (by norm_num)

/-- C10: on any successful invocation (catch within capacity, at least one
candidate contract, spot data present), the single contract used everywhere is
the first candidate with maximal latest settle price, and the entire response —
scenario revenues, 10%-of-notional margins, the 75% recommendation, and the
stress-test rows — is priced at that one contract's settle price. -/
theorem hedge_advisor_uses_best_contract (cap catch_tons : ℚ) (month : String)
    (c : ContractRow) (rest : List ContractRow) (spot_obs : List ℚ)
    (hcap : catch_tons ≤ cap) (hspot : spot_obs ≠ []) :
    bestContract c rest ∈ c :: rest
      ∧ (∀ x ∈ c :: rest, x.current_price ≤ (bestContract c rest).current_price)
      ∧ futures_hedge_advisor cap catch_tons month (c :: rest) spot_obs
          = Except.ok
              { current_spot_average := pyMean spot_obs
                best_futures_price := (bestContract c rest).current_price
                futures_premium :=
                  (bestContract c rest).current_price - pyMean spot_obs
                recommended_contract := (bestContract c rest).symbol
                hedging_scenarios :=
                  [hedgeScenario catch_tons (bestContract c rest).current_price
                      (bestContract c rest).contract_size_tons (1 / 2),
                    hedgeScenario catch_tons (bestContract c rest).current_price
                      (bestContract c rest).contract_size_tons (3 / 4),
                    hedgeScenario catch_tons (bestContract c rest).current_price
                      (bestContract c rest).contract_size_tons (9 / 10)]
                recommended_contracts_needed :=
                  pyRound2 (catch_tons * 2000 * (3 / 4)
                    / ((bestContract c rest).contract_size_tons * 2000))
                recommended_margin :=
                  catch_tons * 2000 * (3 / 4)
                    * (bestContract c rest).current_price * (10 / 100)
                risk_analysis :=
                  [riskRow (catch_tons * 2000)
                      (bestContract c rest).current_price 2 "Price Crash",
                    riskRow (catch_tons * 2000)
                      (bestContract c rest).current_price (pyMean spot_obs)
                      "Current Market",
                    riskRow (catch_tons * 2000)
                      (bestContract c rest).current_price (7 / 2)
                      "Price Surge"] } := by
  refine ⟨pyMaxBy_mem _ c rest, pyMaxBy_le _ c rest, ?_⟩
  rw [futures_hedge_advisor, if_neg (not_lt.mpr hcap)]
  simp only [avgSpotRows, if_neg hspot, avgSpotPrice]
  rfl

/-- C10 witness: two candidate contracts where the second has the higher settle
price; the response is priced at the second contract throughout. -/
theorem hedge_advisor_uses_best_contract_witness :
    bestContract ⟨"SQ-MAR25-MNT", 50, 2⟩ [⟨"SQ-MAR25-CASH", 25, 3⟩]
        ∈ (⟨"SQ-MAR25-MNT", 50, 2⟩ : ContractRow) :: [⟨"SQ-MAR25-CASH", 25, 3⟩]
      ∧ (∀ x ∈ (⟨"SQ-MAR25-MNT", 50, 2⟩ : ContractRow) :: [⟨"SQ-MAR25-CASH", 25, 3⟩],
          x.current_price
            ≤ (bestContract ⟨"SQ-MAR25-MNT", 50, 2⟩
                [⟨"SQ-MAR25-CASH", 25, 3⟩]).current_price)
      ∧ futures_hedge_advisor 100 10 "2025-03"
            ((⟨"SQ-MAR25-MNT", 50, 2⟩ : ContractRow) :: [⟨"SQ-MAR25-CASH", 25, 3⟩])
            [3]
          = Except.ok
              { current_spot_average := pyMean [3]
                best_futures_price :=
                  (bestContract ⟨"SQ-MAR25-MNT", 50, 2⟩
                    [⟨"SQ-MAR25-CASH", 25, 3⟩]).current_price
                futures_premium :=
                  (bestContract ⟨"SQ-MAR25-MNT", 50, 2⟩
                    [⟨"SQ-MAR25-CASH", 25, 3⟩]).current_price - pyMean [3]
                recommended_contract :=
                  (bestContract ⟨"SQ-MAR25-MNT", 50, 2⟩
                    [⟨"SQ-MAR25-CASH", 25, 3⟩]).symbol
                hedging_scenarios :=
                  [hedgeScenario 10
                      (bestContract ⟨"SQ-MAR25-MNT", 50, 2⟩
                        [⟨"SQ-MAR25-CASH", 25, 3⟩]).current_price
                      (bestContract ⟨"SQ-MAR25-MNT", 50, 2⟩
                        [⟨"SQ-MAR25-CASH", 25, 3⟩]).contract_size_tons (1 / 2),
                    hedgeScenario 10
                      (bestContract ⟨"SQ-MAR25-MNT", 50, 2⟩
                        [⟨"SQ-MAR25-CASH", 25, 3⟩]).current_price
                      (bestContract ⟨"SQ-MAR25-MNT", 50, 2⟩
                        [⟨"SQ-MAR25-CASH", 25, 3⟩]).contract_size_tons (3 / 4),
                    hedgeScenario 10
                      (bestContract ⟨"SQ-MAR25-MNT", 50, 2⟩
                        [⟨"SQ-MAR25-CASH", 25, 3⟩]).current_price
                      (bestContract ⟨"SQ-MAR25-MNT", 50, 2⟩
                        [⟨"SQ-MAR25-CASH", 25, 3⟩]).contract_size_tons (9 / 10)]
                recommended_contracts_needed :=
                  pyRound2 (10 * 2000 * (3 / 4)
                    / ((bestContract ⟨"SQ-MAR25-MNT", 50, 2⟩
                        [⟨"SQ-MAR25-CASH", 25, 3⟩]).contract_size_tons * 2000))
                recommended_margin :=
                  10 * 2000 * (3 / 4)
                    * (bestContract ⟨"SQ-MAR25-MNT", 50, 2⟩
                        [⟨"SQ-MAR25-CASH", 25, 3⟩]).current_price * (10 / 100)
                risk_analysis :=
                  [riskRow (10 * 2000)
                      (bestContract ⟨"SQ-MAR25-MNT", 50, 2⟩
                        [⟨"SQ-MAR25-CASH", 25, 3⟩]).current_price 2 "Price Crash",
                    riskRow (10 * 2000)
                      (bestContract ⟨"SQ-MAR25-MNT", 50, 2⟩
                        [⟨"SQ-MAR25-CASH", 25, 3⟩]).current_price (pyMean [3])
                      "Current Market",
                    riskRow (10 * 2000)
                      (bestContract ⟨"SQ-MAR25-MNT", 50, 2⟩
                        [⟨"SQ-MAR25-CASH", 25, 3⟩]).current_price (7 / 2)
                      "Price Surge"] } :=
  hedge_advisor_uses_best_contract 100 10 "2025-03" ⟨"SQ-MAR25-MNT", 50, 2⟩
    [⟨"SQ-MAR25-CASH", 25, 3⟩] [3] (by norm_num) (by simp)

end Squber
